import Mathlib

/-!
Verification development for the software 3D rasterizer in
DariaGalygina/compgraphic-lab9.

The repository ships three closely related program variants:

* `src/script.js`, first program (lines 1-380): the renderer with a
  per-pixel z-buffer (`clearZBuffer`, depth-tested `drawTriangle`).
  Embedded below in namespace `SrcA`.
* `src/script.js`, second program (lines 380-883): the renderer with a
  perspective projection stage, translation, camera-relative backface
  culling and full Phong lighting (`calculatePhong`).  Embedded below in
  namespace `SrcB`.
* `src/unnamed/part_000`: the variant with a fixed view-direction
  visibility test (`isFaceVisible`) and no z-buffer.  Embedded below in
  namespace `SrcC`.

JavaScript numbers are modelled as real numbers (`ℝ`); `Math.sqrt`,
`Math.cos`, `Math.sin` become `Real.sqrt`, `Real.cos`, `Real.sin`;
`Math.floor`/`Math.ceil` become `Int.floor`/`Int.ceil`; the JavaScript
remainder operator `%` becomes `Int.tmod` (truncated remainder, the sign
of the dividend, as in JavaScript).  Out-of-range list indexing, which
would throw in JavaScript, is modelled with `List.getD` and a default
element in `SrcA`/`SrcB` (no claim below exercises an out-of-range
index there) and with `Option`-valued access in `SrcC.calculateNormals`,
where a claim is about the failure itself.  Mutation of the pixel
surface and z-buffer is modelled by explicit state passing: the
z-buffer is a function `ℤ → ℝ` indexed by `y * width + x`, and the
pixel surface is a list of `PixelWrite`s in the order the program
issues them.
-/

noncomputable section

/-- Point3D from src/script.js lines 1-31 (identical in all three
variants): an immutable triple of real coordinates. -/
@[ext]
structure Point3D where
  x : ℝ
  y : ℝ
  z : ℝ

instance : Inhabited Point3D := ⟨⟨0, 0, 0⟩⟩

namespace Point3D

/-- Point3D.subtract, src/script.js lines 5-7. -/
def subtract (a b : Point3D) : Point3D :=
  ⟨a.x - b.x, a.y - b.y, a.z - b.z⟩

/-- Point3D.add, src/script.js lines 8-10. -/
def add (a b : Point3D) : Point3D :=
  ⟨a.x + b.x, a.y + b.y, a.z + b.z⟩

/-- Point3D.multiply, src/script.js lines 11-13. -/
def multiply (a : Point3D) (scalar : ℝ) : Point3D :=
  ⟨a.x * scalar, a.y * scalar, a.z * scalar⟩

/-- Point3D.cross, src/script.js lines 14-20. -/
def cross (a b : Point3D) : Point3D :=
  ⟨a.y * b.z - a.z * b.y,
   a.z * b.x - a.x * b.z,
   a.x * b.y - a.y * b.x⟩

/-- Point3D.dot, src/script.js lines 21-23. -/
def dot (a b : Point3D) : ℝ :=
  a.x * b.x + a.y * b.y + a.z * b.z

/-- Point3D.length, src/script.js lines 24-26. -/
def length (a : Point3D) : ℝ :=
  Real.sqrt (a.x * a.x + a.y * a.y + a.z * a.z)

/-- Point3D.normalize, src/script.js lines 27-30: divide by the length
when it is positive, otherwise return the vector unchanged. -/
def normalize (a : Point3D) : Point3D :=
  if 0 < a.length then ⟨a.x / a.length, a.y / a.length, a.z / a.length⟩ else a

end Point3D

/-- RGB color record ({r, g, b} object literals in the source). -/
@[ext]
structure Color where
  r : ℝ
  g : ℝ
  b : ℝ

instance : Inhabited Color := ⟨⟨0, 0, 0⟩⟩

/-- Texture coordinate record ({u, v} object literals in the source). -/
structure TexCoord where
  u : ℝ
  v : ℝ

instance : Inhabited TexCoord := ⟨⟨0, 0⟩⟩

/-- Vertex from src/script.js lines 33-39: position, accumulated
normal, texture coordinate. -/
structure Vertex where
  position : Point3D
  normal : Point3D
  texCoord : TexCoord

instance : Inhabited Vertex := ⟨⟨⟨0, 0, 0⟩, ⟨0, 0, 0⟩, ⟨0, 0⟩⟩⟩

/-- The shadingMode render-state string ('flat' | 'gouraud' | 'phong'). -/
inductive ShadingMode where
  | flat
  | gouraud
  | phong
deriving DecidableEq

/-- The textureType render-state string. -/
inductive TextureType where
  | checker
  | gradient
  | stripes
deriving DecidableEq

/-- One pixel written to the output surface by fillRect(x, y, 1, 1). -/
structure PixelWrite where
  x : ℤ
  y : ℤ
  color : Color

/-- rotatePoint, src/script.js lines 217-232 and 617-632 and
src/unnamed/part_000 lines 319-334 (identical in all three variants):
rotate about X, then Y, then Z, skipping a step when its angle is
exactly zero. -/
def rotatePoint (point : Point3D) (rx ry rz : ℝ) : Point3D :=
  let x0 := point.x
  let y0 := point.y
  let z0 := point.z
  let y1 := if rx ≠ 0 then y0 * Real.cos rx - z0 * Real.sin rx else y0
  let z1 := if rx ≠ 0 then y0 * Real.sin rx + z0 * Real.cos rx else z0
  let x1 := if ry ≠ 0 then x0 * Real.cos ry + z1 * Real.sin ry else x0
  let z2 := if ry ≠ 0 then -x0 * Real.sin ry + z1 * Real.cos ry else z1
  let x2 := if rz ≠ 0 then x1 * Real.cos rz - y1 * Real.sin rz else x1
  let y2 := if rz ≠ 0 then x1 * Real.sin rz + y1 * Real.cos rz else y1
  ⟨x2, y2, z2⟩

/-- The standard rotation about the X axis (the spec's §4.1 wording:
the untouched axis coordinate is fixed, the other two rotate by the
standard 2D rotation formula). -/
def rotateXAxis (a : ℝ) (p : Point3D) : Point3D :=
  ⟨p.x, p.y * Real.cos a - p.z * Real.sin a, p.y * Real.sin a + p.z * Real.cos a⟩

/-- The standard rotation about the Y axis, as in the spec's §4.1. -/
def rotateYAxis (a : ℝ) (p : Point3D) : Point3D :=
  ⟨p.x * Real.cos a + p.z * Real.sin a, p.y, -p.x * Real.sin a + p.z * Real.cos a⟩

/-- The standard rotation about the Z axis, as in the spec's §4.1. -/
def rotateZAxis (a : ℝ) (p : Point3D) : Point3D :=
  ⟨p.x * Real.cos a - p.y * Real.sin a, p.x * Real.sin a + p.y * Real.cos a, p.z⟩

/-- Replace the element at an index by the image under a function,
leaving the list unchanged at other positions (the model of a single
JavaScript element assignment `a[i] = f(a[i])`). -/
def updateAt {α : Type} : List α → ℕ → (α → α) → List α
  | [], _, _ => []
  | a :: l, 0, f => f a :: l
  | a :: l, n + 1, f => a :: updateAt l n f

namespace SrcA

/-- Render state of the first program in src/script.js (constructor,
lines 79-102): the fields the rasterization path reads.  The canvas
dimensions come from the output surface. -/
structure State where
  shadingMode : ShadingMode
  enableTexturing : Bool
  textureType : TextureType
  lightPosition : Point3D
  ambientIntensity : ℝ
  diffuseIntensity : ℝ
  objectColor : Color
  rotation : Point3D
  scale : ℝ
  width : ℤ
  height : ℤ

/-- Transformed vertex as built in the first program's render,
src/script.js lines 327-338: screen x, y, camera-space z, plus the
vertex's normal, texture coordinate and (pre-lit) color. -/
structure TVertex where
  x : ℝ
  y : ℝ
  z : ℝ
  normal : Point3D
  texCoord : TexCoord
  color : Color

instance : Inhabited TVertex := ⟨⟨0, 0, 0, ⟨0, 0, 0⟩, ⟨0, 0⟩, ⟨0, 0, 0⟩⟩⟩

/-- Face.calculateNormal, src/script.js lines 48-57: the normalized
cross product of the first three referenced vertex positions, or the
fallback (0, 0, 1) when the face lists fewer than 3 indices. -/
def faceCalculateNormal (vertices : List Vertex) (vertexIndices : List ℕ) : Point3D :=
  if vertexIndices.length < 3 then ⟨0, 0, 1⟩
  else
    let v0 := (vertices.getD (vertexIndices.getD 0 0) default).position
    let v1 := (vertices.getD (vertexIndices.getD 1 0) default).position
    let v2 := (vertices.getD (vertexIndices.getD 2 0) default).position
    let vec1 := v1.subtract v0
    let vec2 := v2.subtract v0
    (vec1.cross vec2).normalize

/-- Model3D.calculateVertexNormals, src/script.js lines 67-76: zero
every vertex normal, accumulate each face's normal into the normals of
the vertices it references, then normalize every vertex normal. -/
def calculateVertexNormals (vertices : List Vertex) (faces : List (List ℕ)) : List Vertex :=
  let vs0 := vertices.map fun v => { v with normal := (⟨0, 0, 0⟩ : Point3D) }
  let vs1 := faces.foldl (fun vs vertexIndices =>
    let normal := faceCalculateNormal vs vertexIndices
    vertexIndices.foldl (fun vs idx =>
      updateAt vs idx fun v => { v with normal := v.normal.add normal }) vs) vs0
  vs1.map fun v => { v with normal := v.normal.normalize }

/-- calculateLighting, src/script.js lines 234-239: ambient plus
diffuse from the normalized light position, clamped above by 1. -/
def calculateLighting (st : State) (normal : Point3D) : ℝ :=
  let normNormal := normal.normalize
  let lightDir := st.lightPosition.normalize
  let diffuse := max (normNormal.dot lightDir) 0
  min (st.ambientIntensity + st.diffuseIntensity * diffuse) 1

/-- getTextureColor, src/script.js lines 241-253. -/
def getTextureColor (st : State) (u v : ℝ) : Color :=
  match st.textureType with
  | TextureType.checker =>
      if Int.tmod ⌊u * 4⌋ 2 = Int.tmod ⌊v * 4⌋ 2 then ⟨1, 0, 0⟩ else ⟨0, 0, 1⟩
  | TextureType.gradient => ⟨u, v, (1 - u) * (1 - v)⟩
  | TextureType.stripes =>
      if Int.tmod ⌊u * 8⌋ 2 = 0 then ⟨1, 1, 0⟩ else ⟨0, 1, 1⟩

/-- Number.MAX_VALUE, the sentinel the z-buffer is cleared to
(src/script.js line 257): (2^53 − 1) · 2^971. -/
def numberMaxValue : ℝ := (2 ^ 53 - 1) * 2 ^ 971

/-- clearZBuffer, src/script.js lines 255-259: set every entry in the
index range of the buffer (length n) to Number.MAX_VALUE. -/
def clearZBuffer (n : ℤ) (zBuffer : ℤ → ℝ) : ℤ → ℝ :=
  fun i => if 0 ≤ i ∧ i < n then numberMaxValue else zBuffer i

/-- The barycentric denominator of drawTriangle, src/script.js
line 269. -/
def denom (v1 v2 v3 : TVertex) : ℝ :=
  (v2.y - v3.y) * (v1.x - v3.x) + (v3.x - v2.x) * (v1.y - v3.y)

/-- The first barycentric weight, src/script.js line 272. -/
def lambda1 (v1 v2 v3 : TVertex) (x y : ℝ) : ℝ :=
  ((v2.y - v3.y) * (x - v3.x) + (v3.x - v2.x) * (y - v3.y)) / denom v1 v2 v3

/-- The second barycentric weight, src/script.js line 273. -/
def lambda2 (v1 v2 v3 : TVertex) (x y : ℝ) : ℝ :=
  ((v3.y - v1.y) * (x - v3.x) + (v1.x - v3.x) * (y - v3.y)) / denom v1 v2 v3

/-- The third barycentric weight, src/script.js line 274. -/
def lambda3 (v1 v2 v3 : TVertex) (x y : ℝ) : ℝ :=
  1 - lambda1 v1 v2 v3 x y - lambda2 v1 v2 v3 x y

/-- The depth interpolated from the three vertices' depth values with
the barycentric weights, src/script.js line 277. -/
def depthAt (v1 v2 v3 : TVertex) (x y : ℝ) : ℝ :=
  lambda1 v1 v2 v3 x y * v1.z + lambda2 v1 v2 v3 x y * v2.z + lambda3 v1 v2 v3 x y * v3.z

/-- The pixel color computed in the body of drawTriangle,
src/script.js lines 283-308: flat, Gouraud interpolation or
interpolated-normal lighting, with an optional texture multiply. -/
def pixelColor (st : State) (v1 v2 v3 : TVertex) (l1 l2 l3 : ℝ) : Color :=
  let color :=
    if st.shadingMode = ShadingMode.flat then v1.color
    else if st.shadingMode = ShadingMode.gouraud then
      ⟨l1 * v1.color.r + l2 * v2.color.r + l3 * v3.color.r,
       l1 * v1.color.g + l2 * v2.color.g + l3 * v3.color.g,
       l1 * v1.color.b + l2 * v2.color.b + l3 * v3.color.b⟩
    else
      let nx := l1 * v1.normal.x + l2 * v2.normal.x + l3 * v3.normal.x
      let ny := l1 * v1.normal.y + l2 * v2.normal.y + l3 * v3.normal.y
      let nz := l1 * v1.normal.z + l2 * v2.normal.z + l3 * v3.normal.z
      let intensity := calculateLighting st ⟨nx, ny, nz⟩
      ⟨st.objectColor.r * intensity, st.objectColor.g * intensity, st.objectColor.b * intensity⟩
  if st.enableTexturing then
    let u := l1 * v1.texCoord.u + l2 * v2.texCoord.u + l3 * v3.texCoord.u
    let v := l1 * v1.texCoord.v + l2 * v2.texCoord.v + l3 * v3.texCoord.v
    let texColor := getTextureColor st u v
    ⟨color.r * texColor.r, color.g * texColor.g, color.b * texColor.b⟩
  else color

/-- The body of drawTriangle's doubly nested pixel loop, src/script.js
lines 269-312: skip degenerate denominators, test the barycentric
weights, then write the pixel and update the stored depth only when
the interpolated depth passes the z-buffer test. -/
def pixelStep (st : State) (v1 v2 v3 : TVertex)
    (acc : (ℤ → ℝ) × List PixelWrite) (p : ℤ × ℤ) : (ℤ → ℝ) × List PixelWrite :=
  let x := p.1
  let y := p.2
  if |denom v1 v2 v3| < 1 / 10000 then acc
  else
    let l1 := lambda1 v1 v2 v3 x y
    let l2 := lambda2 v1 v2 v3 x y
    let l3 := lambda3 v1 v2 v3 x y
    if 0 ≤ l1 ∧ 0 ≤ l2 ∧ 0 ≤ l3 then
      let z := l1 * v1.z + l2 * v2.z + l3 * v3.z
      let bufferIndex := y * st.width + x
      if z < acc.1 bufferIndex ∧ 0 < z then
        (Function.update acc.1 bufferIndex z,
         acc.2 ++ [⟨x, y, pixelColor st v1 v2 v3 l1 l2 l3⟩])
      else acc
    else acc

/-- The inclusive integer range [lo, hi] as a list. -/
def intRange (lo hi : ℤ) : List ℤ :=
  (List.range (hi + 1 - lo).toNat).map fun i => lo + i

/-- The pixel centers of the clipped bounding box, row by row (y outer,
x inner), matching the loop nest of drawTriangle. -/
def pixelRange (minX maxX minY maxY : ℤ) : List (ℤ × ℤ) :=
  (intRange minY maxY).flatMap fun y => (intRange minX maxX).map fun x => (x, y)

/-- drawTriangle, src/script.js lines 261-316: iterate the clipped
screen-space bounding box and run the per-pixel body, threading the
z-buffer and accumulating pixel writes. -/
def drawTriangle (st : State) (v1 v2 v3 : TVertex) (zBuffer : ℤ → ℝ) :
    (ℤ → ℝ) × List PixelWrite :=
  let minX := max 0 ⌊min v1.x (min v2.x v3.x)⌋
  let maxX := min (st.width - 1) ⌈max v1.x (max v2.x v3.x)⌉
  let minY := max 0 ⌊min v1.y (min v2.y v3.y)⌋
  let maxY := min (st.height - 1) ⌈max v1.y (max v2.y v3.y)⌉
  (pixelRange minX maxX minY maxY).foldl (pixelStep st v1 v2 v3) (zBuffer, [])

end SrcA

/-- Face of the second program in src/script.js (lines 426-431) and of
src/unnamed/part_000 (lines 47-53): an ordered list of vertex indices
plus parallel per-vertex texture coordinates. -/
structure FaceB where
  vertexIndices : List ℕ
  texCoords : List TexCoord

namespace SrcB

/-- Render state of the second program in src/script.js (constructor,
lines 455-482). -/
structure State where
  shadingMode : ShadingMode
  enableTexturing : Bool
  textureType : TextureType
  lightPosition : Point3D
  objectColor : Color
  ambient : ℝ
  specularColor : Color
  specularIntensity : ℝ
  shininess : ℕ
  rotation : Point3D
  scale : ℝ
  translation : Point3D
  cameraDistance : ℝ
  perspective : ℝ
  width : ℤ
  height : ℤ

/-- Camera-space vertex produced by the transform stage,
src/script.js lines 755-768: translated position plus rotated normal. -/
structure CVertex where
  position : Point3D
  normal : Point3D

instance : Inhabited CVertex := ⟨⟨⟨0, 0, 0⟩, ⟨0, 0, 0⟩⟩⟩

/-- Vertex record handed to drawTriangle, src/script.js lines 812-850:
camera-space position and normal together with the (Gouraud) vertex
color. -/
structure DVertex where
  position : Point3D
  normal : Point3D
  color : Color

instance : Inhabited DVertex := ⟨⟨⟨0, 0, 0⟩, ⟨0, 0, 0⟩, ⟨0, 0, 0⟩⟩⟩

/-- Screen-space vertex produced by the projection stage,
src/script.js lines 770-782: screen x, y and the retained zDistance. -/
@[ext]
structure ScreenVertex where
  x : ℝ
  y : ℝ
  z : ℝ

instance : Inhabited ScreenVertex := ⟨⟨0, 0, 0⟩⟩

/-- The per-vertex transform of render, src/script.js lines 755-768:
rotate, scale, translate the position; rotate (only) the normal. -/
def transformVertex (st : State) (vertex : Vertex) : CVertex :=
  let rotated := rotatePoint vertex.position st.rotation.x st.rotation.y st.rotation.z
  let scaled := rotated.multiply st.scale
  let translated : Point3D :=
    ⟨scaled.x + st.translation.x, scaled.y + st.translation.y, scaled.z + st.translation.z⟩
  ⟨translated, rotatePoint vertex.normal st.rotation.x st.rotation.y st.rotation.z⟩

/-- The projection stage of render, src/script.js lines 770-782:
perspective factor from the camera distance, Y flipped, depth equal to
zDistance. -/
def project (st : State) (position : Point3D) : ScreenVertex :=
  let cameraZ := st.cameraDistance
  let objectZ := position.z
  let zDistance := cameraZ - objectZ
  let factor := st.perspective / (st.perspective + zDistance)
  let scaleFactor : ℝ := 120
  ⟨position.x * factor * scaleFactor + (st.width : ℝ) / 2,
   -position.y * factor * scaleFactor + (st.height : ℝ) / 2,
   zDistance⟩

/-- The ambient, diffuse and specular terms of calculatePhong,
src/script.js lines 634-650. -/
structure PhongTerms where
  ambient : ℝ
  diffuse : ℝ
  specular : ℝ

/-- calculatePhong, src/script.js lines 634-650: diffuse from the
normalized light position; reflection vector
normalize(lightDir − 2·(lightDir·normal)·normal); specular as the
shininess power of the clamped reflect·view angle, scaled by the
specular intensity, with no dependence on the diffuse term. -/
def calculatePhong (st : State) (normal viewDirection : Point3D) : PhongTerms :=
  let normNormal := normal.normalize
  let lightDir := st.lightPosition.normalize
  let viewDir := viewDirection.normalize
  let diffuse := max (normNormal.dot lightDir) 0
  let reflectDir := (lightDir.subtract (normNormal.multiply (2 * lightDir.dot normNormal))).normalize
  let specAngle := max (reflectDir.dot viewDir) 0
  let specular := specAngle ^ st.shininess
  ⟨st.ambient, diffuse, st.specularIntensity * specular⟩

/-- getTextureColor of the second program, src/script.js lines 652-667. -/
def getTextureColor (st : State) (u v : ℝ) : Color :=
  match st.textureType with
  | TextureType.checker =>
      let size : ℝ := 8
      let tileU := ⌊u * size⌋
      let tileV := ⌊v * size⌋
      if Int.tmod tileU 2 = Int.tmod tileV 2 then ⟨1, 1, 1⟩ else ⟨0.3, 0.3, 0.3⟩
  | TextureType.gradient => ⟨u, v, (1 - u) * (1 - v)⟩
  | _ => ⟨1, 1, 1⟩

/-- The Gouraud per-vertex color of render, src/script.js
lines 784-795: ambient as a flat offset plus diffuse times the object
color, from the transformed vertex's normal. -/
def vertexColor (st : State) (vertex : CVertex) : Color :=
  let normNormal := vertex.normal.normalize
  let lightDir := st.lightPosition.normalize
  let diffuse := max (normNormal.dot lightDir) 0
  ⟨st.ambient + diffuse * st.objectColor.r,
   st.ambient + diffuse * st.objectColor.g,
   st.ambient + diffuse * st.objectColor.b⟩

/-- The barycentric denominator of the second program's drawTriangle,
src/script.js lines 679-680. -/
def denom (s1 s2 s3 : ScreenVertex) : ℝ :=
  (s2.y - s3.y) * (s1.x - s3.x) + (s3.x - s2.x) * (s1.y - s3.y)

/-- The first barycentric weight, src/script.js lines 683-684. -/
def lambda1 (s1 s2 s3 : ScreenVertex) (x y : ℝ) : ℝ :=
  ((s2.y - s3.y) * (x - s3.x) + (s3.x - s2.x) * (y - s3.y)) / denom s1 s2 s3

/-- The second barycentric weight, src/script.js lines 685-686. -/
def lambda2 (s1 s2 s3 : ScreenVertex) (x y : ℝ) : ℝ :=
  ((s3.y - s1.y) * (x - s3.x) + (s1.x - s3.x) * (y - s3.y)) / denom s1 s2 s3

/-- The third barycentric weight, src/script.js line 687. -/
def lambda3 (s1 s2 s3 : ScreenVertex) (x y : ℝ) : ℝ :=
  1 - lambda1 s1 s2 s3 x y - lambda2 s1 s2 s3 x y

/-- The pixel color computed in the body of the second program's
drawTriangle, src/script.js lines 690-735: Gouraud interpolation or
per-pixel Phong (ambient as a flat offset, diffuse times object color,
specular times specular color), then optional texture multiply, then a
clamp of every channel to [0, 1]. -/
def pixelColor (st : State) (v1 v2 v3 : DVertex) (t1 t2 t3 : TexCoord)
    (l1 l2 l3 : ℝ) : Color :=
  let color :=
    if st.shadingMode = ShadingMode.gouraud then
      (⟨l1 * v1.color.r + l2 * v2.color.r + l3 * v3.color.r,
        l1 * v1.color.g + l2 * v2.color.g + l3 * v3.color.g,
        l1 * v1.color.b + l2 * v2.color.b + l3 * v3.color.b⟩ : Color)
    else
      let nx := l1 * v1.normal.x + l2 * v2.normal.x + l3 * v3.normal.x
      let ny := l1 * v1.normal.y + l2 * v2.normal.y + l3 * v3.normal.y
      let nz := l1 * v1.normal.z + l2 * v2.normal.z + l3 * v3.normal.z
      let interpolatedNormal := (⟨nx, ny, nz⟩ : Point3D).normalize
      let px := l1 * v1.position.x + l2 * v2.position.x + l3 * v3.position.x
      let py := l1 * v1.position.y + l2 * v2.position.y + l3 * v3.position.y
      let pz := l1 * v1.position.z + l2 * v2.position.z + l3 * v3.position.z
      let position : Point3D := ⟨px, py, pz⟩
      let cameraPos : Point3D := ⟨0, 0, st.cameraDistance⟩
      let viewDir := cameraPos.subtract position
      let phong := calculatePhong st interpolatedNormal viewDir
      (⟨phong.ambient + phong.diffuse * st.objectColor.r + phong.specular * st.specularColor.r,
        phong.ambient + phong.diffuse * st.objectColor.g + phong.specular * st.specularColor.g,
        phong.ambient + phong.diffuse * st.objectColor.b + phong.specular * st.specularColor.b⟩ : Color)
  let color :=
    if st.enableTexturing then
      let u := l1 * t1.u + l2 * t2.u + l3 * t3.u
      let v := l1 * t1.v + l2 * t2.v + l3 * t3.v
      let texColor := getTextureColor st u v
      (⟨color.r * texColor.r, color.g * texColor.g, color.b * texColor.b⟩ : Color)
    else color
  ⟨min (max color.r 0) 1, min (max color.g 0) 1, min (max color.b 0) 1⟩

/-- The body of the second program's pixel loop, src/script.js
lines 679-739: no depth test, every covered pixel is written. -/
def pixelStep (st : State) (v1 v2 v3 : DVertex) (s1 s2 s3 : ScreenVertex)
    (t1 t2 t3 : TexCoord) (acc : List PixelWrite) (p : ℤ × ℤ) : List PixelWrite :=
  let x := p.1
  let y := p.2
  if |denom s1 s2 s3| < 1 / 10000 then acc
  else
    let l1 := lambda1 s1 s2 s3 x y
    let l2 := lambda2 s1 s2 s3 x y
    let l3 := lambda3 s1 s2 s3 x y
    if 0 ≤ l1 ∧ 0 ≤ l2 ∧ 0 ≤ l3 then
      acc ++ [⟨x, y, pixelColor st v1 v2 v3 t1 t2 t3 l1 l2 l3⟩]
    else acc

/-- drawTriangle of the second program, src/script.js lines 669-742. -/
def drawTriangle (st : State) (v1 v2 v3 : DVertex) (s1 s2 s3 : ScreenVertex)
    (t1 t2 t3 : TexCoord) : List PixelWrite :=
  let minX := max 0 ⌊min s1.x (min s2.x s3.x)⌋
  let maxX := min (st.width - 1) ⌈max s1.x (max s2.x s3.x)⌉
  let minY := max 0 ⌊min s1.y (min s2.y s3.y)⌋
  let maxY := min (st.height - 1) ⌈max s1.y (max s2.y s3.y)⌉
  (SrcA.pixelRange minX maxX minY maxY).foldl (pixelStep st v1 v2 v3 s1 s2 s3 t1 t2 t3) []

/-- The backface-culling dot product of render, src/script.js
lines 799-810: the face normal from the first three camera-space
vertices, dotted with the vector from the face's first vertex toward
the camera position (0, 0, cameraDistance). -/
def faceVisibleDot (st : State) (tverts : List CVertex) (face : FaceB) : ℝ :=
  let pos1 := (tverts.getD (face.vertexIndices.getD 0 0) default).position
  let pos2 := (tverts.getD (face.vertexIndices.getD 1 0) default).position
  let pos3 := (tverts.getD (face.vertexIndices.getD 2 0) default).position
  let edge1 := pos2.subtract pos1
  let edge2 := pos3.subtract pos1
  let normal := edge1.cross edge2
  let cameraPos : Point3D := ⟨0, 0, st.cameraDistance⟩
  let toCamera := cameraPos.subtract pos1
  normal.dot toCamera

/-- The rasterization a face receives once it has passed the
visibility test, src/script.js lines 811-871: triangles are drawn
directly, quadrilaterals are split along the 0-2 diagonal. -/
def rasterizeFace (st : State) (tverts : List CVertex) (sverts : List ScreenVertex)
    (vertexColors : List Color) (face : FaceB) : List PixelWrite :=
  let idx := fun k => face.vertexIndices.getD k 0
  let mkv := fun k =>
    let tv := tverts.getD (idx k) default
    ({ position := tv.position, normal := tv.normal,
       color := if st.shadingMode = ShadingMode.gouraud then
         vertexColors.getD (idx k) default else default } : DVertex)
  if face.vertexIndices.length = 3 then
    drawTriangle st (mkv 0) (mkv 1) (mkv 2)
      (sverts.getD (idx 0) default) (sverts.getD (idx 1) default) (sverts.getD (idx 2) default)
      (face.texCoords.getD 0 default) (face.texCoords.getD 1 default) (face.texCoords.getD 2 default)
  else if face.vertexIndices.length = 4 then
    drawTriangle st (mkv 0) (mkv 1) (mkv 2)
      (sverts.getD (idx 0) default) (sverts.getD (idx 1) default) (sverts.getD (idx 2) default)
      (face.texCoords.getD 0 default) (face.texCoords.getD 1 default) (face.texCoords.getD 2 default)
    ++
    drawTriangle st (mkv 0) (mkv 2) (mkv 3)
      (sverts.getD (idx 0) default) (sverts.getD (idx 2) default) (sverts.getD (idx 3) default)
      (face.texCoords.getD 0 default) (face.texCoords.getD 2 default) (face.texCoords.getD 3 default)
  else []

/-- The per-face step of render, src/script.js lines 797-874: a face
with at least 3 indices whose normal·toCamera dot product is strictly
positive is rasterized, every other face contributes nothing. -/
def renderFace (st : State) (tverts : List CVertex) (sverts : List ScreenVertex)
    (vertexColors : List Color) (face : FaceB) : List PixelWrite :=
  if 3 ≤ face.vertexIndices.length then
    if 0 < faceVisibleDot st tverts face then
      rasterizeFace st tverts sverts vertexColors face
    else []
  else []

end SrcB

namespace SrcC

/-- Render state of src/unnamed/part_000 (constructor, lines 78-95). -/
structure State where
  shadingMode : ShadingMode
  enableTexturing : Bool
  textureType : TextureType
  lightPosition : Point3D
  objectColor : Color
  rotation : Point3D
  scale : ℝ
  width : ℤ
  height : ℤ

/-- The per-face body of Model3D.calculateNormals,
src/unnamed/part_000 lines 65-73.  The source reads the first three
referenced vertices without a length guard and reads each referenced
vertex before mutating its normal; an out-of-range access throws a
TypeError in JavaScript, modelled here by `Option`-valued access: the
step returns `none` exactly when such an access occurs. -/
def faceStep (vs : List Vertex) (face : FaceB) : Option (List Vertex) := do
  let w0 ← (face.vertexIndices.get? 0).bind vs.get?
  let w1 ← (face.vertexIndices.get? 1).bind vs.get?
  let w2 ← (face.vertexIndices.get? 2).bind vs.get?
  let normal := ((w1.position.subtract w0.position).cross
    (w2.position.subtract w0.position)).normalize
  face.vertexIndices.foldlM (fun (vs : List Vertex) (idx : ℕ) => do
    let _ ← vs.get? idx
    pure (updateAt vs idx fun v => { v with normal := v.normal.add normal })) vs

/-- Model3D.calculateNormals, src/unnamed/part_000 lines 63-75: zero
every vertex normal, run `faceStep` for every face, then normalize
every vertex normal (inside `Option`, since any step may fail). -/
def calculateNormals (vertices : List Vertex) (faces : List FaceB) : Option (List Vertex) :=
  let vs0 := vertices.map fun v => { v with normal := (⟨0, 0, 0⟩ : Point3D) }
  (faces.foldlM faceStep vs0).map
    fun (vs : List Vertex) => vs.map fun (v : Vertex) => { v with normal := v.normal.normalize }

/-- calculateDiffuse, src/unnamed/part_000 lines 337-341: the clamped
dot product of the normalized normal with the normalized light
position. -/
def calculateDiffuse (st : State) (normal : Point3D) : ℝ :=
  let normNormal := normal.normalize
  let lightDir := st.lightPosition.normalize
  max (normNormal.dot lightDir) 0

/-- getTextureColor, src/unnamed/part_000 lines 343-352. -/
def getTextureColor (st : State) (u v : ℝ) : Color :=
  match st.textureType with
  | TextureType.checker =>
      let size : ℝ := 8
      let tileU := ⌊u * size⌋
      let tileV := ⌊v * size⌋
      if Int.tmod tileU 2 = Int.tmod tileV 2 then ⟨1, 1, 1⟩ else ⟨0.3, 0.3, 0.3⟩
  | _ => ⟨1, 1, 1⟩

/-- The barycentric denominator of drawTriangle, src/unnamed/part_000
lines 362-363. -/
def denom (s1 s2 s3 : SrcB.ScreenVertex) : ℝ :=
  (s2.y - s3.y) * (s1.x - s3.x) + (s3.x - s2.x) * (s1.y - s3.y)

/-- The first barycentric weight, src/unnamed/part_000 lines 366-367. -/
def lambda1 (s1 s2 s3 : SrcB.ScreenVertex) (x y : ℝ) : ℝ :=
  ((s2.y - s3.y) * (x - s3.x) + (s3.x - s2.x) * (y - s3.y)) / denom s1 s2 s3

/-- The second barycentric weight, src/unnamed/part_000 lines 368-369. -/
def lambda2 (s1 s2 s3 : SrcB.ScreenVertex) (x y : ℝ) : ℝ :=
  ((s3.y - s1.y) * (x - s3.x) + (s1.x - s3.x) * (y - s3.y)) / denom s1 s2 s3

/-- The third barycentric weight, src/unnamed/part_000 line 370. -/
def lambda3 (s1 s2 s3 : SrcB.ScreenVertex) (x y : ℝ) : ℝ :=
  1 - lambda1 s1 s2 s3 x y - lambda2 s1 s2 s3 x y

/-- The pixel color of drawTriangle, src/unnamed/part_000
lines 377-407: Gouraud interpolation or interpolated-normal diffuse
lighting, with optional texture multiply. -/
def pixelColor (st : State) (v1 v2 v3 : SrcB.DVertex) (t1 t2 t3 : TexCoord)
    (l1 l2 l3 : ℝ) : Color :=
  let color :=
    if st.shadingMode = ShadingMode.gouraud then
      (⟨l1 * v1.color.r + l2 * v2.color.r + l3 * v3.color.r,
        l1 * v1.color.g + l2 * v2.color.g + l3 * v3.color.g,
        l1 * v1.color.b + l2 * v2.color.b + l3 * v3.color.b⟩ : Color)
    else
      let nx := l1 * v1.normal.x + l2 * v2.normal.x + l3 * v3.normal.x
      let ny := l1 * v1.normal.y + l2 * v2.normal.y + l3 * v3.normal.y
      let nz := l1 * v1.normal.z + l2 * v2.normal.z + l3 * v3.normal.z
      let intensity := calculateDiffuse st ⟨nx, ny, nz⟩
      (⟨st.objectColor.r * intensity, st.objectColor.g * intensity,
        st.objectColor.b * intensity⟩ : Color)
  if st.enableTexturing then
    let u := l1 * t1.u + l2 * t2.u + l3 * t3.u
    let v := l1 * t1.v + l2 * t2.v + l3 * t3.v
    let texColor := getTextureColor st u v
    (⟨color.r * texColor.r, color.g * texColor.g, color.b * texColor.b⟩ : Color)
  else color

/-- The body of the pixel loop of drawTriangle, src/unnamed/part_000
lines 362-411: the z-buffer test is replaced by a fixed z > −10
check. -/
def pixelStep (st : State) (v1 v2 v3 : SrcB.DVertex) (s1 s2 s3 : SrcB.ScreenVertex)
    (t1 t2 t3 : TexCoord) (acc : List PixelWrite) (p : ℤ × ℤ) : List PixelWrite :=
  let x := p.1
  let y := p.2
  if |denom s1 s2 s3| < 1 / 10000 then acc
  else
    let l1 := lambda1 s1 s2 s3 x y
    let l2 := lambda2 s1 s2 s3 x y
    let l3 := lambda3 s1 s2 s3 x y
    if 0 ≤ l1 ∧ 0 ≤ l2 ∧ 0 ≤ l3 then
      let z := l1 * s1.z + l2 * s2.z + l3 * s3.z
      if -10 < z then
        acc ++ [⟨x, y, pixelColor st v1 v2 v3 t1 t2 t3 l1 l2 l3⟩]
      else acc
    else acc

/-- drawTriangle, src/unnamed/part_000 lines 354-415. -/
def drawTriangle (st : State) (v1 v2 v3 : SrcB.DVertex) (s1 s2 s3 : SrcB.ScreenVertex)
    (t1 t2 t3 : TexCoord) : List PixelWrite :=
  let minX := max 0 ⌊min s1.x (min s2.x s3.x)⌋
  let maxX := min (st.width - 1) ⌈max s1.x (max s2.x s3.x)⌉
  let minY := max 0 ⌊min s1.y (min s2.y s3.y)⌋
  let maxY := min (st.height - 1) ⌈max s1.y (max s2.y s3.y)⌉
  (SrcA.pixelRange minX maxX minY maxY).foldl (pixelStep st v1 v2 v3 s1 s2 s3 t1 t2 t3) []

/-- isFaceVisible, src/unnamed/part_000 lines 417-430: a face with
fewer than 3 indices is invisible; otherwise the face normal from the
first three transformed positions is dotted with the fixed direction
(0, 0, −1). -/
def isFaceVisible (transformedVertices : List Point3D) (face : FaceB) : Prop :=
  if face.vertexIndices.length < 3 then False
  else
    let v1 := transformedVertices.getD (face.vertexIndices.getD 0 0) default
    let v2 := transformedVertices.getD (face.vertexIndices.getD 1 0) default
    let v3 := transformedVertices.getD (face.vertexIndices.getD 2 0) default
    let edge1 := v2.subtract v1
    let edge2 := v3.subtract v1
    let normal := edge1.cross edge2
    let cameraDir : Point3D := ⟨0, 0, -1⟩
    0 < normal.dot cameraDir

end SrcC

/-- The per-pixel Phong color exactly as the spec's §4.5 describes it
(claim C3), for comparison with the code's `SrcB.pixelColor`:
reflection vector normalize(2·(n·l)·n − l), specular gated to zero
when the diffuse term is zero, and the ambient term multiplied by the
object color, each channel clamped to [0, 1]. -/
def phongClaimColor (st : SrcB.State) (interpNormal interpPosition : Point3D) : Color :=
  let n := interpNormal.normalize
  let lightDir := st.lightPosition.normalize
  let viewDir := ((⟨0, 0, st.cameraDistance⟩ : Point3D).subtract interpPosition).normalize
  let diffuse := max (n.dot lightDir) 0
  let reflectDir := ((n.multiply (2 * (n.dot lightDir))).subtract lightDir).normalize
  let specular :=
    if diffuse = 0 then 0
    else st.specularIntensity * max (reflectDir.dot viewDir) 0 ^ st.shininess
  ⟨min (max (st.ambient * st.objectColor.r + diffuse * st.objectColor.r +
      specular * st.specularColor.r) 0) 1,
   min (max (st.ambient * st.objectColor.g + diffuse * st.objectColor.g +
      specular * st.specularColor.g) 0) 1,
   min (max (st.ambient * st.objectColor.b + diffuse * st.objectColor.b +
      specular * st.specularColor.b) 0) 1⟩

/-- The per-pixel Phong color the second program actually computes
(the amended form of claim C3), written as one closed-form expression:
the interpolated normal is renormalized (twice, once at interpolation
and once inside calculatePhong), the reflection vector is
normalize(lightDir − 2·(lightDir·n)·n), the specular term is not gated
on the diffuse term, and the ambient term is a flat offset, each
channel clamped to [0, 1]. -/
def phongCodeColor (st : SrcB.State) (interpNormal interpPosition : Point3D) : Color :=
  let n := interpNormal.normalize.normalize
  let lightDir := st.lightPosition.normalize
  let viewDir := ((⟨0, 0, st.cameraDistance⟩ : Point3D).subtract interpPosition).normalize
  let diffuse := max (n.dot lightDir) 0
  let reflectDir := (lightDir.subtract (n.multiply (2 * lightDir.dot n))).normalize
  let specular := st.specularIntensity * max (reflectDir.dot viewDir) 0 ^ st.shininess
  ⟨min (max (st.ambient + diffuse * st.objectColor.r + specular * st.specularColor.r) 0) 1,
   min (max (st.ambient + diffuse * st.objectColor.g + specular * st.specularColor.g) 0) 1,
   min (max (st.ambient + diffuse * st.objectColor.b + specular * st.specularColor.b) 0) 1⟩

/-- A concrete render state for the first program: flat shading, no
texturing, the constructor defaults of src/script.js lines 84-96, a
10×10 output surface. -/
def exampleStateA : SrcA.State :=
  ⟨ShadingMode.flat, false, TextureType.checker, ⟨2, 2, 2⟩, 0.2, 0.7,
   ⟨0.8, 0.6, 0.4⟩, ⟨0, 0, 0⟩, 1, 10, 10⟩

/-- A concrete render state for the second program: Phong shading, no
texturing, the constructor defaults of src/script.js lines 460-477
with the light position moved onto the z axis, a 10×10 output
surface. -/
def exampleStateB : SrcB.State :=
  ⟨ShadingMode.phong, false, TextureType.checker, ⟨0, 0, 2⟩, ⟨0.8, 0.6, 0.4⟩, 0.1,
   ⟨1, 1, 1⟩, 0.8, 32, ⟨0, 0, 0⟩, 1, ⟨0, 0, 0⟩, 5, 500, 10, 10⟩

/-- A concrete camera-space vertex at the origin with the +z unit
normal. -/
def exampleDVertex : SrcB.DVertex := ⟨⟨0, 0, 0⟩, ⟨0, 0, 1⟩, ⟨0, 0, 0⟩⟩

/-- First vertex of a concrete screen-space triangle at depth 1. -/
def exampleTV1 : SrcA.TVertex := ⟨0, 0, 1, ⟨0, 0, 0⟩, ⟨0, 0⟩, ⟨1, 0, 0⟩⟩

/-- Second vertex of a concrete screen-space triangle at depth 1. -/
def exampleTV2 : SrcA.TVertex := ⟨4, 0, 1, ⟨0, 0, 0⟩, ⟨0, 0⟩, ⟨1, 0, 0⟩⟩

/-- Third vertex of a concrete screen-space triangle at depth 1. -/
def exampleTV3 : SrcA.TVertex := ⟨0, 4, 1, ⟨0, 0, 0⟩, ⟨0, 0⟩, ⟨1, 0, 0⟩⟩

/-- Squared length of a Point3D is nonnegative. -/
theorem Point3D.sumsq_nonneg (p : Point3D) : 0 ≤ p.x * p.x + p.y * p.y + p.z * p.z := by
  nlinarith [sq_nonneg p.x, sq_nonneg p.y, sq_nonneg p.z]

/-- The result of Point3D.normalize has unit length or is the zero
vector. -/
theorem normalize_unit_or_zero (p : Point3D) :
    p.normalize.length = 1 ∨ p.normalize = ⟨0, 0, 0⟩ := by
  by_cases h : 0 < p.length
  · left
    have hs : 0 < p.x * p.x + p.y * p.y + p.z * p.z := by
      by_contra hc
      have h0 : p.x * p.x + p.y * p.y + p.z * p.z = 0 :=
        le_antisymm (not_lt.mp hc) p.sumsq_nonneg
      rw [Point3D.length, h0, Real.sqrt_zero] at h
      exact lt_irrefl 0 h
    have hl : p.length * p.length = p.x * p.x + p.y * p.y + p.z * p.z :=
      Real.mul_self_sqrt p.sumsq_nonneg
    have hlne : p.length ≠ 0 := ne_of_gt h
    rw [Point3D.normalize, if_pos h]
    show Real.sqrt (p.x / p.length * (p.x / p.length) + p.y / p.length * (p.y / p.length) +
      p.z / p.length * (p.z / p.length)) = 1
    have heq : p.x / p.length * (p.x / p.length) + p.y / p.length * (p.y / p.length) +
        p.z / p.length * (p.z / p.length) = 1 := by
      field_simp
      linarith [hl]
    rw [heq, Real.sqrt_one]
  · right
    have h0 : p.length = 0 := le_antisymm (not_lt.mp h) (Real.sqrt_nonneg _)
    have hs : p.x * p.x + p.y * p.y + p.z * p.z = 0 := by
      have hle := Real.sqrt_eq_zero'.mp h0
      exact le_antisymm (by linarith [hle]) p.sumsq_nonneg
    have hx : p.x = 0 := by nlinarith [sq_nonneg p.x, sq_nonneg p.y, sq_nonneg p.z]
    have hy : p.y = 0 := by nlinarith [sq_nonneg p.x, sq_nonneg p.y, sq_nonneg p.z]
    have hz : p.z = 0 := by nlinarith [sq_nonneg p.x, sq_nonneg p.y, sq_nonneg p.z]
    rw [Point3D.normalize, if_neg h]
    exact Point3D.ext hx hy hz

/-- Normalizing a point on the positive z axis yields (0, 0, 1). -/
theorem normalize_zaxis {c : ℝ} (hc : 0 < c) :
    (⟨0, 0, c⟩ : Point3D).normalize = ⟨0, 0, 1⟩ := by
  have hl : (⟨(0 : ℝ), 0, c⟩ : Point3D).length = c := by
    rw [Point3D.length]
    have : (0 : ℝ) * 0 + 0 * 0 + c * c = c * c := by ring
    rw [this, Real.sqrt_mul_self hc.le]
  rw [Point3D.normalize, hl, if_pos hc]
  exact Point3D.ext (by simp) (by simp) (div_self (ne_of_gt hc))

/-- Normalizing (0, 0, −1) yields (0, 0, −1). -/
theorem normalize_neg_zaxis : (⟨0, 0, -1⟩ : Point3D).normalize = ⟨0, 0, -1⟩ := by
  have hl : (⟨(0 : ℝ), 0, -1⟩ : Point3D).length = 1 := by
    rw [Point3D.length]
    have : (0 : ℝ) * 0 + 0 * 0 + -1 * -1 = 1 := by ring
    rw [this, Real.sqrt_one]
  rw [Point3D.normalize, hl, if_pos one_pos]
  exact Point3D.ext (by simp) (by simp) (by norm_num)

/-- A fold whose step fixes every accumulator returns its initial
accumulator. -/
theorem foldl_fixed_point {α β : Type} (f : β → α → β) (l : List α) (b : β)
    (h : ∀ acc x, f acc x = acc) : l.foldl f b = b := by
  induction l generalizing b with
  | nil => rfl
  | cons a l ih => rw [List.foldl_cons, h b a]; exact ih b

/-- C8: Point3D.normalize returns any zero-length vector — in
particular the zero vector — unchanged, through the guarded branch
that performs no division (src/script.js lines 27-30); the function is
total. -/
theorem normalize_zero_vector (v : Point3D) (h : v.length = 0) : v.normalize = v := by
  rw [Point3D.normalize, if_neg]
  rw [h]
  exact lt_irrefl 0

/-- Witness for C8 at the zero vector. -/
theorem normalize_zero_vector_witness :
    (⟨0, 0, 0⟩ : Point3D).length = 0 ∧ (⟨0, 0, 0⟩ : Point3D).normalize = ⟨0, 0, 0⟩ := by
  have h : (⟨0, 0, 0⟩ : Point3D).length = 0 := by
    rw [Point3D.length]
    norm_num
  exact ⟨h, normalize_zero_vector _ h⟩

/-- C5: rotatePoint applies the axis rotations in the fixed order X
then Y then Z (the zero-angle skip of src/script.js lines 619-630
never changes the result), and the transform stage of the second
program's render (src/script.js lines 755-768) rotates the position,
then applies the uniform scale, then adds the translation offset,
while the vertex normal receives only the rotation. -/
theorem transform_rotation_order :
    (∀ (p : Point3D) (rx ry rz : ℝ),
      rotatePoint p rx ry rz = rotateZAxis rz (rotateYAxis ry (rotateXAxis rx p))) ∧
    (∀ (st : SrcB.State) (v : Vertex),
      SrcB.transformVertex st v =
        ⟨((rotatePoint v.position st.rotation.x st.rotation.y st.rotation.z).multiply
            st.scale).add st.translation,
         rotatePoint v.normal st.rotation.x st.rotation.y st.rotation.z⟩) := by
  constructor
  · intro p rx ry rz
    rw [rotatePoint, rotateXAxis, rotateYAxis, rotateZAxis]
    by_cases hx : rx = 0 <;> by_cases hy : ry = 0 <;> by_cases hz : rz = 0 <;>
      simp only [hx, hy, hz, ne_eq, not_true_eq_false, not_false_eq_true, if_true, if_false,
        ite_true, ite_false, Real.cos_zero, Real.sin_zero] <;>
      exact Point3D.ext (by ring) (by ring) (by ring)
  · intro st v
    rw [SrcB.transformVertex]
    rfl

/-- C10: the light direction every lighting path uses is
normalize(lightPosition), computed without reference to the shaded
point — the diffuse term of calculatePhong does not depend on the view
direction (hence not on the fragment position), it equals the clamped
dot product of the renormalized normal with the normalized light
position, and the Gouraud per-vertex colors of the second program's
render are invariant under changing the translation offset. -/
theorem light_direction_position_independent :
    (∀ (st : SrcB.State) (n vd vd' : Point3D),
      (SrcB.calculatePhong st n vd).diffuse = (SrcB.calculatePhong st n vd').diffuse) ∧
    (∀ (st : SrcB.State) (n vd : Point3D),
      (SrcB.calculatePhong st n vd).diffuse =
        max (n.normalize.dot st.lightPosition.normalize) 0) ∧
    (∀ (st : SrcB.State) (t t' : Point3D) (v : Vertex),
      SrcB.vertexColor { st with translation := t }
          (SrcB.transformVertex { st with translation := t } v) =
        SrcB.vertexColor { st with translation := t' }
          (SrcB.transformVertex { st with translation := t' } v)) := by
  refine ⟨fun st n vd vd' => rfl, fun st n vd => rfl, fun st t t' v => ?_⟩
  rw [SrcB.vertexColor, SrcB.vertexColor, SrcB.transformVertex, SrcB.transformVertex]

/-- C6: the projection stage of the second program's render
(src/script.js lines 770-782) retains depth = cameraDistance − z, and
for a camera-space point with z = cameraDistance (zDistance = 0) the
perspective factor is exactly 1, so the screen coordinates are exactly
±coordinate·scaleFactor + half the canvas dimension. -/
theorem projection_depth_and_round_trip (st : SrcB.State) (p : Point3D)
    (hp : st.perspective ≠ 0) (hz : p.z = st.cameraDistance) :
    (SrcB.project st p).z = st.cameraDistance - p.z ∧
    SrcB.project st p =
      ⟨p.x * 120 + (st.width : ℝ) / 2, -p.y * 120 + (st.height : ℝ) / 2, 0⟩ := by
  have h0 : st.cameraDistance - p.z = 0 := by rw [hz]; ring
  constructor
  · rfl
  · show (⟨p.x * (st.perspective / (st.perspective + (st.cameraDistance - p.z))) * 120 +
        (st.width : ℝ) / 2,
      -p.y * (st.perspective / (st.perspective + (st.cameraDistance - p.z))) * 120 +
        (st.height : ℝ) / 2,
      st.cameraDistance - p.z⟩ : SrcB.ScreenVertex) = _
    refine SrcB.ScreenVertex.ext ?_ ?_ ?_
    · rw [h0, add_zero, div_self hp]
      ring
    · rw [h0, add_zero, div_self hp]
      ring
    · exact h0

/-- Witness for C6 at a concrete state and point with
z = cameraDistance. -/
theorem projection_depth_and_round_trip_witness :
    exampleStateB.perspective ≠ 0 ∧ (⟨1, 2, 5⟩ : Point3D).z = exampleStateB.cameraDistance ∧
    ((SrcB.project exampleStateB ⟨1, 2, 5⟩).z =
        exampleStateB.cameraDistance - (⟨1, 2, 5⟩ : Point3D).z ∧
      SrcB.project exampleStateB ⟨1, 2, 5⟩ =
        ⟨(⟨1, 2, 5⟩ : Point3D).x * 120 + (exampleStateB.width : ℝ) / 2,
         -(⟨1, 2, 5⟩ : Point3D).y * 120 + (exampleStateB.height : ℝ) / 2, 0⟩) := by
  refine ⟨?_, ?_, projection_depth_and_round_trip exampleStateB ⟨1, 2, 5⟩ ?_ ?_⟩ <;>
    norm_num [exampleStateB]

/-- C1: clearZBuffer initializes every entry of the depth store to the
sentinel Number.MAX_VALUE, and for a covered pixel (non-degenerate
denominator, all three barycentric weights nonnegative) the per-pixel
body of the first program's drawTriangle writes the pixel and updates
the stored depth if and only if the interpolated depth is strictly
positive and strictly less than the currently stored depth. -/
theorem zbuffer_write_iff_depth_test (st : SrcA.State) (v1 v2 v3 : SrcA.TVertex)
    (zb : ℤ → ℝ) (ws : List PixelWrite) (x y n i : ℤ) (zb' : ℤ → ℝ)
    (hden : ¬ |SrcA.denom v1 v2 v3| < 1 / 10000)
    (h1 : 0 ≤ SrcA.lambda1 v1 v2 v3 x y)
    (h2 : 0 ≤ SrcA.lambda2 v1 v2 v3 x y)
    (h3 : 0 ≤ SrcA.lambda3 v1 v2 v3 x y)
    (hi : 0 ≤ i) (hn : i < n) :
    SrcA.pixelStep st v1 v2 v3 (zb, ws) (x, y) =
      (if 0 < SrcA.depthAt v1 v2 v3 x y ∧
          SrcA.depthAt v1 v2 v3 x y < zb (y * st.width + x) then
        (Function.update zb (y * st.width + x) (SrcA.depthAt v1 v2 v3 x y),
         ws ++ [⟨x, y, SrcA.pixelColor st v1 v2 v3 (SrcA.lambda1 v1 v2 v3 x y)
           (SrcA.lambda2 v1 v2 v3 x y) (SrcA.lambda3 v1 v2 v3 x y)⟩])
      else (zb, ws)) ∧
    SrcA.clearZBuffer n zb' i = SrcA.numberMaxValue := by
  constructor
  · show (if |SrcA.denom v1 v2 v3| < 1 / 10000 then (zb, ws) else _) = _
    rw [if_neg hden]
    show (if 0 ≤ SrcA.lambda1 v1 v2 v3 x y ∧ 0 ≤ SrcA.lambda2 v1 v2 v3 x y ∧
        0 ≤ SrcA.lambda3 v1 v2 v3 x y then _ else (zb, ws)) = _
    rw [if_pos ⟨h1, h2, h3⟩]
    by_cases hc : 0 < SrcA.depthAt v1 v2 v3 x y ∧
        SrcA.depthAt v1 v2 v3 x y < zb (y * st.width + x)
    · rw [if_pos hc, if_pos ⟨hc.2, hc.1⟩]
      rfl
    · rw [if_neg hc, if_neg (fun hc' => hc ⟨hc'.2, hc'.1⟩)]
  · rw [SrcA.clearZBuffer]
    exact if_pos ⟨hi, hn⟩

/-- Witness for C1: a covered pixel of a concrete triangle at pixel
(1, 1), with a concrete z-buffer. -/
theorem zbuffer_write_iff_depth_test_witness :
    (¬ |SrcA.denom exampleTV1 exampleTV2 exampleTV3| < 1 / 10000) ∧
    0 ≤ SrcA.lambda1 exampleTV1 exampleTV2 exampleTV3 ((1 : ℤ) : ℝ) ((1 : ℤ) : ℝ) ∧
    0 ≤ SrcA.lambda2 exampleTV1 exampleTV2 exampleTV3 ((1 : ℤ) : ℝ) ((1 : ℤ) : ℝ) ∧
    0 ≤ SrcA.lambda3 exampleTV1 exampleTV2 exampleTV3 ((1 : ℤ) : ℝ) ((1 : ℤ) : ℝ) ∧
    (0 : ℤ) ≤ 5 ∧ (5 : ℤ) < 100 ∧
    (SrcA.pixelStep exampleStateA exampleTV1 exampleTV2 exampleTV3 (fun _ => 100, []) (1, 1) =
      (if 0 < SrcA.depthAt exampleTV1 exampleTV2 exampleTV3 ((1 : ℤ) : ℝ) ((1 : ℤ) : ℝ) ∧
          SrcA.depthAt exampleTV1 exampleTV2 exampleTV3 ((1 : ℤ) : ℝ) ((1 : ℤ) : ℝ) <
            (fun _ => (100 : ℝ)) ((1 : ℤ) * exampleStateA.width + 1) then
        (Function.update (fun _ => (100 : ℝ)) ((1 : ℤ) * exampleStateA.width + 1)
          (SrcA.depthAt exampleTV1 exampleTV2 exampleTV3 ((1 : ℤ) : ℝ) ((1 : ℤ) : ℝ)),
         [] ++ [⟨1, 1, SrcA.pixelColor exampleStateA exampleTV1 exampleTV2 exampleTV3
           (SrcA.lambda1 exampleTV1 exampleTV2 exampleTV3 ((1 : ℤ) : ℝ) ((1 : ℤ) : ℝ))
           (SrcA.lambda2 exampleTV1 exampleTV2 exampleTV3 ((1 : ℤ) : ℝ) ((1 : ℤ) : ℝ))
           (SrcA.lambda3 exampleTV1 exampleTV2 exampleTV3 ((1 : ℤ) : ℝ) ((1 : ℤ) : ℝ))⟩])
      else (fun _ => (100 : ℝ), [])) ∧
    SrcA.clearZBuffer 100 (fun _ => 0) 5 = SrcA.numberMaxValue) := by
  have hden : ¬ |SrcA.denom exampleTV1 exampleTV2 exampleTV3| < 1 / 10000 := by
    norm_num [SrcA.denom, exampleTV1, exampleTV2, exampleTV3]
  have h1 : 0 ≤ SrcA.lambda1 exampleTV1 exampleTV2 exampleTV3 ((1 : ℤ) : ℝ) ((1 : ℤ) : ℝ) := by
    norm_num [SrcA.lambda1, SrcA.denom, exampleTV1, exampleTV2, exampleTV3]
  have h2 : 0 ≤ SrcA.lambda2 exampleTV1 exampleTV2 exampleTV3 ((1 : ℤ) : ℝ) ((1 : ℤ) : ℝ) := by
    norm_num [SrcA.lambda2, SrcA.denom, exampleTV1, exampleTV2, exampleTV3]
  have h3 : 0 ≤ SrcA.lambda3 exampleTV1 exampleTV2 exampleTV3 ((1 : ℤ) : ℝ) ((1 : ℤ) : ℝ) := by
    norm_num [SrcA.lambda3, SrcA.lambda1, SrcA.lambda2, SrcA.denom,
      exampleTV1, exampleTV2, exampleTV3]
  exact ⟨hden, h1, h2, h3, by norm_num, by norm_num,
    zbuffer_write_iff_depth_test exampleStateA exampleTV1 exampleTV2 exampleTV3
      (fun _ => 100) [] 1 1 100 5 (fun _ => 0) hden h1 h2 h3 (by norm_num) (by norm_num)⟩

/-- C7: when the barycentric denominator magnitude is below the 1e-4
epsilon — which holds in particular for three collinear screen
vertices, whose denominator is exactly zero — the drawTriangle of the
first program leaves the z-buffer untouched and writes zero pixels,
the drawTriangle of the part_000 variant writes zero pixels, and
collinearity of the three screen vertices forces the denominator to
equal zero. -/
theorem degenerate_triangle_writes_nothing (st : SrcA.State) (v1 v2 v3 : SrcA.TVertex)
    (zb : ℤ → ℝ) (stC : SrcC.State) (w1 w2 w3 : SrcB.DVertex)
    (s1 s2 s3 : SrcB.ScreenVertex) (t1 t2 t3 : TexCoord) (a b c : SrcB.ScreenVertex)
    (hA : |SrcA.denom v1 v2 v3| < 1 / 10000)
    (hC : |SrcC.denom s1 s2 s3| < 1 / 10000)
    (hcol : (c.x - a.x) * (b.y - a.y) = (c.y - a.y) * (b.x - a.x)) :
    SrcA.drawTriangle st v1 v2 v3 zb = (zb, []) ∧
    SrcC.drawTriangle stC w1 w2 w3 s1 s2 s3 t1 t2 t3 = [] ∧
    SrcC.denom a b c = 0 := by
  refine ⟨?_, ?_, ?_⟩
  · exact foldl_fixed_point _ _ _ fun acc p => by
      show (if |SrcA.denom v1 v2 v3| < 1 / 10000 then acc else _) = acc
      rw [if_pos hA]
  · exact foldl_fixed_point _ _ _ fun acc p => by
      show (if |SrcC.denom s1 s2 s3| < 1 / 10000 then acc else _) = acc
      rw [if_pos hC]
  · rw [SrcC.denom]
    linear_combination -hcol

/-- Witness for C7: a concrete collinear screen triangle. -/
theorem degenerate_triangle_writes_nothing_witness :
    |SrcA.denom exampleTV1 exampleTV1 exampleTV1| < 1 / 10000 ∧
    |SrcC.denom ⟨0, 0, 1⟩ ⟨1, 1, 1⟩ ⟨2, 2, 1⟩| < 1 / 10000 ∧
    ((⟨2, 2, 1⟩ : SrcB.ScreenVertex).x - (⟨0, 0, 1⟩ : SrcB.ScreenVertex).x) *
        ((⟨1, 1, 1⟩ : SrcB.ScreenVertex).y - (⟨0, 0, 1⟩ : SrcB.ScreenVertex).y) =
      ((⟨2, 2, 1⟩ : SrcB.ScreenVertex).y - (⟨0, 0, 1⟩ : SrcB.ScreenVertex).y) *
        ((⟨1, 1, 1⟩ : SrcB.ScreenVertex).x - (⟨0, 0, 1⟩ : SrcB.ScreenVertex).x) ∧
    (SrcA.drawTriangle exampleStateA exampleTV1 exampleTV1 exampleTV1 (fun _ => 100) =
        (fun _ => 100, []) ∧
      SrcC.drawTriangle
        ⟨ShadingMode.gouraud, false, TextureType.checker, ⟨2, 2, 2⟩, ⟨0.8, 0.6, 0.4⟩,
          ⟨0, 0, 0⟩, 1, 10, 10⟩
        exampleDVertex exampleDVertex exampleDVertex ⟨0, 0, 1⟩ ⟨1, 1, 1⟩ ⟨2, 2, 1⟩
        ⟨0, 0⟩ ⟨0, 0⟩ ⟨0, 0⟩ = [] ∧
      SrcC.denom ⟨0, 0, 1⟩ ⟨1, 1, 1⟩ ⟨2, 2, 1⟩ = 0) := by
  have hA : |SrcA.denom exampleTV1 exampleTV1 exampleTV1| < 1 / 10000 := by
    norm_num [SrcA.denom, exampleTV1]
  have hC : |SrcC.denom ⟨0, 0, 1⟩ ⟨1, 1, 1⟩ ⟨2, 2, 1⟩| < 1 / 10000 := by
    norm_num [SrcC.denom]
  have hcol : ((⟨2, 2, 1⟩ : SrcB.ScreenVertex).x - (⟨0, 0, 1⟩ : SrcB.ScreenVertex).x) *
        ((⟨1, 1, 1⟩ : SrcB.ScreenVertex).y - (⟨0, 0, 1⟩ : SrcB.ScreenVertex).y) =
      ((⟨2, 2, 1⟩ : SrcB.ScreenVertex).y - (⟨0, 0, 1⟩ : SrcB.ScreenVertex).y) *
        ((⟨1, 1, 1⟩ : SrcB.ScreenVertex).x - (⟨0, 0, 1⟩ : SrcB.ScreenVertex).x) := by
    norm_num
  exact ⟨hA, hC, hcol,
    degenerate_triangle_writes_nothing exampleStateA exampleTV1 exampleTV1 exampleTV1
      (fun _ => 100) _ exampleDVertex exampleDVertex exampleDVertex _ _ _ ⟨0, 0⟩ ⟨0, 0⟩ ⟨0, 0⟩
      _ _ _ hA hC hcol⟩

/-- Counterexample for C2: a concrete face whose camera-relative dot
product (v1−v0)×(v2−v0) · (cameraPos−v0) is strictly positive, yet the
part_000 visibility filter isFaceVisible rejects it, because that
filter dots the normal with the fixed direction (0, 0, −1) instead of
a vector toward the camera position. -/
theorem visibility_fixed_direction_counterexample :
    0 < ((((⟨1, 0, 0⟩ : Point3D).subtract ⟨0, 0, 0⟩).cross
          ((⟨0, 1, 0⟩ : Point3D).subtract ⟨0, 0, 0⟩)).dot
         ((⟨0, 0, 5⟩ : Point3D).subtract ⟨0, 0, 0⟩)) ∧
    ¬ SrcC.isFaceVisible [⟨0, 0, 0⟩, ⟨1, 0, 0⟩, ⟨0, 1, 0⟩] ⟨[0, 1, 2], []⟩ := by
  constructor
  · norm_num [Point3D.subtract, Point3D.cross, Point3D.dot]
  · rw [SrcC.isFaceVisible]
    norm_num [Point3D.subtract, Point3D.cross, Point3D.dot]

/-- C2 (amended): in the second program of src/script.js, a face is
rasterized exactly when it has at least 3 vertex indices and the dot
product of its camera-space normal with the vector from its first
vertex toward the camera position is strictly positive — a rejected
face (in particular one with a zero normal) contributes no pixel
writes; in the part_000 variant, isFaceVisible instead accepts a face
exactly when it has at least 3 indices and its normal dotted with the
fixed direction (0, 0, −1) is strictly positive. -/
theorem backface_culling_gate :
    (∀ (st : SrcB.State) (tverts : List SrcB.CVertex) (sverts : List SrcB.ScreenVertex)
        (vertexColors : List Color) (face : FaceB),
      SrcB.renderFace st tverts sverts vertexColors face =
        if 3 ≤ face.vertexIndices.length ∧ 0 < SrcB.faceVisibleDot st tverts face then
          SrcB.rasterizeFace st tverts sverts vertexColors face
        else []) ∧
    (∀ (ps : List Point3D) (f : FaceB),
      SrcC.isFaceVisible ps f ↔
        3 ≤ f.vertexIndices.length ∧
        0 < (((ps.getD (f.vertexIndices.getD 1 0) default).subtract
                (ps.getD (f.vertexIndices.getD 0 0) default)).cross
              ((ps.getD (f.vertexIndices.getD 2 0) default).subtract
                (ps.getD (f.vertexIndices.getD 0 0) default))).dot ⟨0, 0, -1⟩) := by
  constructor
  · intro st tverts sverts vertexColors face
    rw [SrcB.renderFace]
    by_cases h1 : 3 ≤ face.vertexIndices.length
    · rw [if_pos h1]
      by_cases h2 : 0 < SrcB.faceVisibleDot st tverts face
      · rw [if_pos h2, if_pos ⟨h1, h2⟩]
      · rw [if_neg h2, if_neg fun hc => h2 hc.2]
    · rw [if_neg h1, if_neg fun hc => h1 hc.1]
  · intro ps f
    rw [SrcC.isFaceVisible]
    by_cases h : f.vertexIndices.length < 3
    · rw [if_pos h]
      simp only [false_iff, not_and]
      intro h3
      omega
    · rw [if_neg h]
      constructor
      · intro hd
        exact ⟨by omega, hd⟩
      · intro hc
        exact hc.2

/-- Any position of a list whose every element had its normal replaced
by its normalization holds a unit-length-or-zero normal (the default
element outside the range has the zero normal). -/
theorem normal_of_map_normalize (l : List Vertex) (i : ℕ) :
    ((l.map fun (v : Vertex) =>
      { v with normal := v.normal.normalize }).getD i default).normal.length = 1 ∨
    ((l.map fun (v : Vertex) =>
      { v with normal := v.normal.normalize }).getD i default).normal = ⟨0, 0, 0⟩ := by
  rw [List.getD_eq_getElem?_getD, List.getElem?_map]
  cases h : l[i]? with
  | none => right; rfl
  | some v => simpa using normalize_unit_or_zero v.normal

/-- C4: after the one-pass vertex-normal computation — zero the
normals, accumulate the normalized face normals computed from each
face's first three vertices, normalize every vertex normal — every
vertex normal of the result has unit length or is the zero vector (the
exact-cancellation edge case), for the first program's
calculateVertexNormals and, whenever the pass succeeds, for the
part_000 variant's calculateNormals; neither pass can fail on the
zero-normalization edge case. -/
theorem vertex_normals_unit_or_zero :
    (∀ (vs : List Vertex) (fs : List (List ℕ)) (i : ℕ),
      ((SrcA.calculateVertexNormals vs fs).getD i default).normal.length = 1 ∨
      ((SrcA.calculateVertexNormals vs fs).getD i default).normal = ⟨0, 0, 0⟩) ∧
    (∀ (vs : List Vertex) (fs : List FaceB) (i : ℕ),
      (((SrcC.calculateNormals vs fs).getD []).getD i default).normal.length = 1 ∨
      (((SrcC.calculateNormals vs fs).getD []).getD i default).normal = ⟨0, 0, 0⟩) := by
  constructor
  · intro vs fs i
    rw [SrcA.calculateVertexNormals]
    exact normal_of_map_normalize _ i
  · intro vs fs i
    rw [SrcC.calculateNormals]
    cases (fs.foldlM SrcC.faceStep
        (vs.map fun v => { v with normal := (⟨0, 0, 0⟩ : Point3D) })) with
    | none =>
        right
        rfl
    | some l =>
        rw [Option.map_some', Option.getD_some]
        exact normal_of_map_normalize l i

/-- A monadic fold over Option returns none when some list element
makes the step fail for every accumulator. -/
theorem foldlM_mem_none {α β : Type} (step : β → α → Option β) (l : List α) (a : α)
    (ha : a ∈ l) (h : ∀ b, step b a = none) (init : β) : l.foldlM step init = none := by
  induction l generalizing init with
  | nil => cases ha
  | cons x xs ih =>
      rw [List.foldlM_cons]
      rcases List.mem_cons.mp ha with hx | hmem
      · rw [hx] at h
        rw [h init]
        rfl
      · cases hx : step init x with
        | none => rfl
        | some b =>
            show xs.foldlM step b = none
            exact ih hmem b

/-- The per-face step of the part_000 normal pass fails on a face with
fewer than 3 vertex indices, for every accumulator. -/
theorem faceStep_short (vs : List Vertex) (face : FaceB)
    (h : face.vertexIndices.length < 3) : SrcC.faceStep vs face = none := by
  have h2 : face.vertexIndices.get? 2 = none := List.get?_eq_none.mpr (by omega)
  rw [SrcC.faceStep, h2]
  cases (face.vertexIndices.get? 0).bind vs.get? with
  | none => rfl
  | some w0 =>
      cases (face.vertexIndices.get? 1).bind vs.get? with
      | none => rfl
      | some w1 => rfl

/-- Counterexample for C9: in the first program, a face with only two
vertex indices is not a no-op contribution — calculateVertexNormals
leaves the first referenced vertex with the fallback contribution
(0, 0, 1) instead of the zero normal a no-op would produce. -/
theorem short_face_counterexample :
    ((SrcA.calculateVertexNormals
        [⟨⟨0, 0, 0⟩, ⟨0, 0, 0⟩, ⟨0, 0⟩⟩, ⟨⟨1, 0, 0⟩, ⟨0, 0, 0⟩, ⟨0, 0⟩⟩]
        [[0, 1]]).getD 0 default).normal = ⟨0, 0, 1⟩ ∧
    (⟨0, 0, 1⟩ : Point3D) ≠ ⟨0, 0, 0⟩ := by
  have h1 : (⟨(0 : ℝ), 0, 1⟩ : Point3D).normalize = ⟨0, 0, 1⟩ := normalize_zaxis one_pos
  constructor
  · norm_num [SrcA.calculateVertexNormals, SrcA.faceCalculateNormal, updateAt,
      Point3D.add, h1]
  · intro h
    have hz := congrArg Point3D.z h
    norm_num at hz

/-- C9 (amended): in the first program, a face referencing fewer than
3 vertex indices makes Face.calculateNormal return the fallback normal
(0, 0, 1) — which the pass then adds into every vertex the face
references — and the pass does not crash; in the part_000 variant, the
normal-computation pass fails (the unguarded index access of
calculateNormals, modelled as `none`) whenever any face references
fewer than 3 vertex indices. -/
theorem short_face_fallback_behavior (vs vsC : List Vertex) (idxs : List ℕ)
    (fs : List FaceB) (f : FaceB)
    (hshort : idxs.length < 3) (hmem : f ∈ fs) (hf : f.vertexIndices.length < 3) :
    SrcA.faceCalculateNormal vs idxs = ⟨0, 0, 1⟩ ∧
    SrcC.calculateNormals vsC fs = none := by
  constructor
  · rw [SrcA.faceCalculateNormal, if_pos hshort]
  · rw [SrcC.calculateNormals,
      foldlM_mem_none SrcC.faceStep fs f hmem (fun b => faceStep_short b f hf) _]
    rfl

/-- Witness for C9 (amended) at a concrete two-index face. -/
theorem short_face_fallback_behavior_witness :
    ([0, 1] : List ℕ).length < 3 ∧ (⟨[0, 1], []⟩ : FaceB) ∈ [(⟨[0, 1], []⟩ : FaceB)] ∧
    (⟨[0, 1], []⟩ : FaceB).vertexIndices.length < 3 ∧
    (SrcA.faceCalculateNormal [] [0, 1] = ⟨0, 0, 1⟩ ∧
     SrcC.calculateNormals [] [⟨[0, 1], []⟩] = none) :=
  ⟨by norm_num, List.mem_singleton.mpr rfl, by norm_num,
    short_face_fallback_behavior [] [] [0, 1] [⟨[0, 1], []⟩] ⟨[0, 1], []⟩ (by norm_num)
      (List.mem_singleton.mpr rfl) (by norm_num)⟩

/-- Counterexample for C3: at a concrete pixel (barycentric weights
(1, 0, 0), unit +z normals, light at (0, 0, 2), the constructor's
lighting constants, texturing off), the second program's per-pixel
Phong color has red channel 0.9, while the formula the claim states —
reflection 2·(n·l)·n − l, specular gated on diffuse, ambient
multiplied by the object color — yields red channel 1. -/
theorem phong_shading_counterexample :
    (SrcB.pixelColor exampleStateB exampleDVertex exampleDVertex exampleDVertex
        ⟨0, 0⟩ ⟨0, 0⟩ ⟨0, 0⟩ 1 0 0).r = 0.9 ∧
    (phongClaimColor exampleStateB ⟨0, 0, 1⟩ ⟨0, 0, 0⟩).r = 1 ∧
    (0.9 : ℝ) ≠ 1 := by
  have h1 : (⟨(0 : ℝ), 0, 1⟩ : Point3D).normalize = ⟨0, 0, 1⟩ := normalize_zaxis one_pos
  have h2 : (⟨(0 : ℝ), 0, 2⟩ : Point3D).normalize = ⟨0, 0, 1⟩ := normalize_zaxis (by norm_num)
  have h5 : (⟨(0 : ℝ), 0, 5⟩ : Point3D).normalize = ⟨0, 0, 1⟩ := normalize_zaxis (by norm_num)
  have hm : (⟨(0 : ℝ), 0, -1⟩ : Point3D).normalize = ⟨0, 0, -1⟩ := normalize_neg_zaxis
  have hne : (ShadingMode.phong = ShadingMode.gouraud) = False :=
    eq_false fun h => ShadingMode.noConfusion h
  refine ⟨?_, ?_, by norm_num⟩
  · rw [SrcB.pixelColor]
    norm_num [exampleStateB, exampleDVertex, SrcB.calculatePhong, Point3D.dot,
      Point3D.subtract, Point3D.multiply, h1, h2, h5, hm, hne, max_def, min_def]
  · rw [phongClaimColor]
    norm_num [exampleStateB, Point3D.dot, Point3D.subtract, Point3D.multiply,
      h1, h2, h5, hm, max_def, min_def]

/-- C3 (amended): for every pixel shaded in the non-Gouraud path with
texturing off, the second program's per-pixel color equals the
closed-form phongCodeColor of the interpolated normal and position:
the interpolated normal is renormalized, diffuse = max(n·l, 0), the
reflection vector is normalize(lightDir − 2·(lightDir·n)·n), the
specular term specularIntensity·max(r·v, 0)^shininess is not gated on
the diffuse term, and the result is ambient + diffuse·objectColor +
specular·specularColor per channel — ambient as a flat offset — with
each channel clamped to [0, 1]. -/
theorem phong_pixel_color_formula (st : SrcB.State) (v1 v2 v3 : SrcB.DVertex)
    (t1 t2 t3 : TexCoord) (l1 l2 l3 : ℝ)
    (hmode : st.shadingMode ≠ ShadingMode.gouraud) (htex : st.enableTexturing = false) :
    SrcB.pixelColor st v1 v2 v3 t1 t2 t3 l1 l2 l3 =
      phongCodeColor st
        ⟨l1 * v1.normal.x + l2 * v2.normal.x + l3 * v3.normal.x,
         l1 * v1.normal.y + l2 * v2.normal.y + l3 * v3.normal.y,
         l1 * v1.normal.z + l2 * v2.normal.z + l3 * v3.normal.z⟩
        ⟨l1 * v1.position.x + l2 * v2.position.x + l3 * v3.position.x,
         l1 * v1.position.y + l2 * v2.position.y + l3 * v3.position.y,
         l1 * v1.position.z + l2 * v2.position.z + l3 * v3.position.z⟩ := by
  rw [SrcB.pixelColor, if_neg hmode, htex]
  rfl

/-- Witness for C3 (amended) at the concrete pixel of the
counterexample. -/
theorem phong_pixel_color_formula_witness :
    exampleStateB.shadingMode ≠ ShadingMode.gouraud ∧
    exampleStateB.enableTexturing = false ∧
    SrcB.pixelColor exampleStateB exampleDVertex exampleDVertex exampleDVertex
        ⟨0, 0⟩ ⟨0, 0⟩ ⟨0, 0⟩ 1 0 0 =
      phongCodeColor exampleStateB
        ⟨1 * exampleDVertex.normal.x + 0 * exampleDVertex.normal.x +
           0 * exampleDVertex.normal.x,
         1 * exampleDVertex.normal.y + 0 * exampleDVertex.normal.y +
           0 * exampleDVertex.normal.y,
         1 * exampleDVertex.normal.z + 0 * exampleDVertex.normal.z +
           0 * exampleDVertex.normal.z⟩
        ⟨1 * exampleDVertex.position.x + 0 * exampleDVertex.position.x +
           0 * exampleDVertex.position.x,
         1 * exampleDVertex.position.y + 0 * exampleDVertex.position.y +
           0 * exampleDVertex.position.y,
         1 * exampleDVertex.position.z + 0 * exampleDVertex.position.z +
           0 * exampleDVertex.position.z⟩ := by
  have hmode : exampleStateB.shadingMode ≠ ShadingMode.gouraud := by
    rw [exampleStateB]
    intro h
    cases h
  have htex : exampleStateB.enableTexturing = false := rfl
  exact ⟨hmode, htex,
    phong_pixel_color_formula exampleStateB exampleDVertex exampleDVertex exampleDVertex
      ⟨0, 0⟩ ⟨0, 0⟩ ⟨0, 0⟩ 1 0 0 hmode htex⟩

end















